import Mathlib

/-!
# Face authentication and liveness verification: a shallow embedding

This file embeds the algorithmic core of `users/face_auth_service.py` and
`users/liveness_service.py` in Lean 4 and proves properties of the embedded
definitions.

Modelling conventions:
* Python floats are modelled as rationals (`ℚ`).  All constants involved
  (0.5, 0.65, 0.8, thresholds, weights) are exactly representable, and no
  comparison in the verified code is close enough to a representation
  boundary for rounding to change its outcome.
* Calls into external libraries (PIL, numpy, scipy, OpenCV, scikit-image,
  DeepFace, face_recognition, hashlib) are modelled as oracle inputs: the
  value the library returned is a parameter of the embedded function, while
  every piece of control flow and arithmetic written in the repository is
  embedded faithfully.
* Uzbek user-facing message strings are modelled by enumerations; each
  constructor is documented with the exact source string it stands for.
-/

namespace FaceAuthService

/-! ## base64_to_image: payload cleaning and padding repair

Embeds the string-cleaning prelude of
`FaceAuthenticationService.base64_to_image` (face_auth_service.py lines
69-96).  Strings are modelled as `List Char`.
-/

/-- The base64 alphabet kept by `re.sub(r'[^A-Za-z0-9+/]', '', s)`. -/
def isBase64Char (c : Char) : Bool :=
  ('A' ≤ c && c ≤ 'Z') || ('a' ≤ c && c ≤ 'z') || ('0' ≤ c && c ≤ '9') ||
    c = '+' || c = '/'

/-- The whitespace characters removed by `''.join(s.split())` (Python
`str.split` with no argument splits on ASCII whitespace). -/
def isPySpace (c : Char) : Bool :=
  c = ' ' || c = '\t' || c = '\n' || c = '\x0d' || c = '\x0b' || c = '\x0c'

/-- `if ',' in s: s = s.split(',')[1]` — when a comma is present, keep the
segment between the first comma and the second comma (or the end). -/
def dropDataUri (cs : List Char) : List Char :=
  if ',' ∈ cs then ((cs.dropWhile (· ≠ ',')).drop 1).takeWhile (· ≠ ',')
  else cs

/-- `''.join(s.split())` — remove all whitespace and newlines. -/
def stripAllWhitespace (cs : List Char) : List Char :=
  cs.filter (fun c => !isPySpace c)

/-- `re.sub(r'[^A-Za-z0-9+/]', '', s)` — drop every character outside the
base64 alphabet (this also drops any existing `=` padding). -/
def keepBase64 (cs : List Char) : List Char :=
  cs.filter isBase64Char

/-- The padding-repair step of `base64_to_image`: depending on the length
modulo 4, truncate one character (remainder 1), append `"=="` (remainder 2),
append `"="` (remainder 3), or leave the string unchanged (remainder 0). -/
def repairPadding (cs : List Char) : List Char :=
  if cs.length % 4 = 1 then cs.dropLast
  else if cs.length % 4 = 2 then cs ++ ['=', '=']
  else if cs.length % 4 = 3 then cs ++ ['=']
  else cs

/-- The whole cleaning prelude of `base64_to_image` applied to a raw
payload, up to but not including the `base64.b64decode` call. -/
def cleanBase64 (cs : List Char) : List Char :=
  keepBase64 (stripAllWhitespace (dropDataUri cs))

/-- C6: after the cleaning steps, the repair step transforms a residual
string of length `r = len % 4` as the spec states — `r = 1` truncates the
last character, `r = 2` appends `"=="`, `r = 3` appends `"="`, `r = 0`
leaves the string unchanged — and in every case the resulting length is
divisible by 4. -/
theorem base64_repair_correct (p : List Char) :
    ((cleanBase64 p).length % 4 = 1 →
      repairPadding (cleanBase64 p) = (cleanBase64 p).dropLast) ∧
    ((cleanBase64 p).length % 4 = 2 →
      repairPadding (cleanBase64 p) = cleanBase64 p ++ ['=', '=']) ∧
    ((cleanBase64 p).length % 4 = 3 →
      repairPadding (cleanBase64 p) = cleanBase64 p ++ ['=']) ∧
    ((cleanBase64 p).length % 4 = 0 →
      repairPadding (cleanBase64 p) = cleanBase64 p) ∧
    4 ∣ (repairPadding (cleanBase64 p)).length := by
  generalize cleanBase64 p = t
  refine ⟨fun h => by simp [repairPadding, h],
          fun h => by simp [repairPadding, h],
          fun h => by simp [repairPadding, h],
          fun h => by simp [repairPadding, h], ?_⟩
  have h4 : t.length % 4 = 0 ∨ t.length % 4 = 1 ∨ t.length % 4 = 2 ∨
      t.length % 4 = 3 := by omega
  rcases h4 with h | h | h | h <;>
    simp [repairPadding, h, List.length_dropLast, List.length_append] <;>
    omega

/-- Witness for `base64_repair_correct` at the concrete payload `"QQ"`
(residual length 2). -/
theorem base64_repair_correct_witness :
    (cleanBase64 ['Q', 'Q']).length % 4 = 2 ∧
    repairPadding (cleanBase64 ['Q', 'Q']) = cleanBase64 ['Q', 'Q'] ++ ['=', '='] :=
  ⟨by decide, (base64_repair_correct ['Q', 'Q']).2.1 (by decide)⟩

/-! ## compare_faces and its helpers

Embeds `FaceAuthenticationService.compare_faces` (lines 207-325),
`_compare_with_orb` (327-356) and `_compare_histograms` (358-391).
-/

/-- Availability of the optional backends, resolved once at import time in
the source (`CV2_AVAILABLE`, `FACE_RECOGNITION_AVAILABLE`,
`DEEPFACE_AVAILABLE`, `SKIMAGE_AVAILABLE`). -/
structure BackendConfig where
  deepfaceAvailable : Bool
  faceRecognitionAvailable : Bool
  cv2Available : Bool
  skimageAvailable : Bool
deriving DecidableEq

/-- A face encoding: either a `face_recognition` 128-dimensional vector
(`len(shape) == 1`) or a 256x256 RGB pixel block produced by
`extract_face_region` (`len(shape) == 3`).  The pixel payload itself is
only ever consumed by library calls, so it is abstracted to a tag. -/
inductive FaceEncoding where
  | vector (v : List ℚ)
  | pixels (tag : ℕ)
deriving DecidableEq

/-- `len(encoding1.shape) == 3 and len(encoding2.shape) == 3`. -/
def bothPixels : FaceEncoding → FaceEncoding → Bool
  | .pixels _, .pixels _ => true
  | _, _ => false

/-- Library outputs consumed by `_compare_with_orb`: the keypoint counts of
the two grayscale images and the Hamming distances of the cross-checked
brute-force matches.  `none` models `des1 is None or des2 is None`. -/
structure OrbData where
  kp1 : ℕ
  kp2 : ℕ
  matchDistances : List ℚ
deriving DecidableEq

/-- Library outputs consumed by one `compare_faces` call. -/
structure CompareOracles where
  /-- `DeepFace.verify(...)['distance']` (cosine distance, nonnegative);
  `none` models the `DeepFace.verify` call raising an exception. -/
  deepfaceDistance : Option ℚ
  /-- `face_recognition.face_distance([encoding1], encoding2)[0]`
  (a Euclidean norm, nonnegative). -/
  frDistance : ℚ
  /-- `skimage.metrics.structural_similarity(gray1, gray2)`; SSIM of two
  equal-sized images lies in `[-1, 1]`. -/
  ssimScore : ℚ
  /-- Keypoints/matches for `_compare_with_orb`. -/
  orbData : Option OrbData
  /-- `cv2.compareHist(..., cv2.HISTCMP_CORREL)` per channel; a correlation
  coefficient lies in `[-1, 1]`. -/
  corrR : ℚ
  corrG : ℚ
  corrB : ℚ
deriving DecidableEq

/-- `_compare_with_orb` (lines 327-356): `score = good / min(kp1, kp2)`
then `min(1.0, score * 2)`; 0 when ORB is absent, a descriptor is `None`
or there are no keypoints. -/
def compareWithOrb (hasOrb : Bool) (d : Option OrbData) : ℚ :=
  if !hasOrb then 0
  else
    match d with
    | none => 0
    | some od =>
      if min od.kp1 od.kp2 = 0 then 0
      else
        let good := (od.matchDistances.filter (fun m => m < 50)).length
        min 1 ((good : ℚ) / ((min od.kp1 od.kp2 : ℕ) : ℚ) * 2)

/-- `_compare_histograms` (lines 358-391): average the three per-channel
correlations and clamp the result into `[0, 1]` via
`max(0.0, min(1.0, score))`. -/
def compareHistograms (corrR corrG corrB : ℚ) : ℚ :=
  max 0 (min 1 ((corrR + corrG + corrB) / 3))

/-- The fallback chain of `compare_faces` after the DeepFace layer (lines
279-321): `face_recognition` vector distance if available, else the
SSIM/ORB/histogram composite, else 0. -/
def compareFacesFallback (cfg : BackendConfig) (o : CompareOracles)
    (e1 e2 : FaceEncoding) : ℚ :=
  if cfg.faceRecognitionAvailable then
    if o.frDistance > 1 then 0 else 1 - o.frDistance
  else if cfg.cv2Available && cfg.skimageAvailable then
    if bothPixels e1 e2 then
      o.ssimScore * 0.5 + compareWithOrb cfg.cv2Available o.orbData * 0.2 +
        compareHistograms o.corrR o.corrG o.corrB * 0.3
    else 0
  else 0

/-- `compare_faces` (lines 207-325).  The DeepFace layer runs when DeepFace
is available and both encodings are pixel blocks; its cosine distance `d`
becomes `similarity = max(0, 1 - d/2)`, blended with SSIM and histogram
scores when `similarity < 0.7` and OpenCV/scikit-image are present.  A
DeepFace exception (`deepfaceDistance = none`) falls through to the
fallback chain. -/
def compareFaces (cfg : BackendConfig) (o : CompareOracles)
    (e1 e2 : FaceEncoding) : ℚ :=
  if cfg.deepfaceAvailable && bothPixels e1 e2 then
    match o.deepfaceDistance with
    | some d =>
      if max 0 (1 - d / 2) < 0.7 && cfg.cv2Available && cfg.skimageAvailable then
        max 0 (1 - d / 2) * 0.6 + o.ssimScore * 0.25 +
          compareHistograms o.corrR o.corrG o.corrB * 0.15
      else max 0 (1 - d / 2)
    | none => compareFacesFallback cfg o e1 e2
  else compareFacesFallback cfg o e1 e2

lemma compareWithOrb_nonneg (hasOrb : Bool) (d : Option OrbData) :
    0 ≤ compareWithOrb hasOrb d := by
  unfold compareWithOrb
  split
  · norm_num
  · split
    · norm_num
    · split
      · norm_num
      · refine le_min (by norm_num) ?_
        positivity

lemma compareWithOrb_le_one (hasOrb : Bool) (d : Option OrbData) :
    compareWithOrb hasOrb d ≤ 1 := by
  unfold compareWithOrb
  split
  · norm_num
  · split
    · norm_num
    · split
      · norm_num
      · exact min_le_left _ _

lemma compareHistograms_nonneg (a b c : ℚ) : 0 ≤ compareHistograms a b c :=
  le_max_left _ _

lemma compareHistograms_le_one (a b c : ℚ) : compareHistograms a b c ≤ 1 :=
  max_le (by norm_num) (min_le_left _ _)

/-- C3 counterexample: with only the classical backends available and an
anti-correlated SSIM value (SSIM of equal-sized images ranges over
`[-1, 1]` and reaches `-1` on anti-correlated inputs), the composite is
`0.5 * (-1) + 0.2 * 0 + 0.3 * 0 = -1/2`, outside `[0, 1]`. -/
theorem compareFaces_below_zero :
    compareFaces ⟨false, false, true, true⟩
        ⟨none, 0, -1, none, 0, 0, 0⟩ (.pixels 0) (.pixels 1) = -(1/2) ∧
      ¬(0 ≤ compareFaces ⟨false, false, true, true⟩
        ⟨none, 0, -1, none, 0, 0, 0⟩ (.pixels 0) (.pixels 1)) := by
  have h : compareFaces ⟨false, false, true, true⟩
      ⟨none, 0, -1, none, 0, 0, 0⟩ (.pixels 0) (.pixels 1) = -(1/2) := by
    simp [compareFaces, compareFacesFallback, bothPixels, compareWithOrb,
      compareHistograms]
    norm_num
  refine ⟨h, ?_⟩
  rw [h]
  norm_num

/-- C3 amended: under the documented library output ranges (DeepFace cosine
distance `≥ 0`, face_recognition distance `≥ 0`, SSIM in `[-1, 1]`),
`compare_faces` always returns a value in `[-1/2, 1]`; it lies in `[0, 1]`
whenever the SSIM oracle is nonnegative (hence in particular on the
vector-distance path, which ignores SSIM). -/
theorem compareFaces_range (cfg : BackendConfig) (o : CompareOracles)
    (e1 e2 : FaceEncoding)
    (hd : ∀ d ∈ o.deepfaceDistance, 0 ≤ d)
    (hfr : 0 ≤ o.frDistance)
    (hs1 : -1 ≤ o.ssimScore) (hs2 : o.ssimScore ≤ 1) :
    -(1/2) ≤ compareFaces cfg o e1 e2 ∧ compareFaces cfg o e1 e2 ≤ 1 ∧
      (0 ≤ o.ssimScore → 0 ≤ compareFaces cfg o e1 e2) := by
  have horb1 := compareWithOrb_nonneg cfg.cv2Available o.orbData
  have horb2 := compareWithOrb_le_one cfg.cv2Available o.orbData
  have hh1 := compareHistograms_nonneg o.corrR o.corrG o.corrB
  have hh2 := compareHistograms_le_one o.corrR o.corrG o.corrB
  have hfb : -(1/2) ≤ compareFacesFallback cfg o e1 e2 ∧
      compareFacesFallback cfg o e1 e2 ≤ 1 ∧
      (0 ≤ o.ssimScore → 0 ≤ compareFacesFallback cfg o e1 e2) := by
    unfold compareFacesFallback
    split
    · split
      · exact ⟨by norm_num, by norm_num, fun _ => le_refl 0⟩
      · rename_i hgt
        push_neg at hgt
        exact ⟨by linarith, by linarith, fun _ => by linarith⟩
    · split
      · split
        · refine ⟨by linarith, by linarith, fun h => by linarith⟩
        · exact ⟨by norm_num, by norm_num, fun _ => le_refl 0⟩
      · exact ⟨by norm_num, by norm_num, fun _ => le_refl 0⟩
  unfold compareFaces
  split
  · cases hdf : o.deepfaceDistance with
    | none => simpa [hdf] using hfb
    | some d =>
      have hd0 : 0 ≤ d := hd d (by simp [hdf])
      have hsim1 : 0 ≤ max 0 (1 - d / 2) := le_max_left _ _
      have hsim2 : max 0 (1 - d / 2) ≤ 1 :=
        max_le (by norm_num) (by linarith)
      simp only [hdf]
      split
      · refine ⟨by linarith, by linarith, fun h => by linarith⟩
      · refine ⟨by linarith, hsim2, fun _ => hsim1⟩
  · exact hfb

/-- Witness for `compareFaces_range` with DeepFace present and a concrete
distance of 1. -/
theorem compareFaces_range_witness :
    -(1/2) ≤ compareFaces ⟨true, false, true, true⟩
        ⟨some 1, 0, 1/2, none, 1, 1, 1⟩ (.pixels 0) (.pixels 1) ∧
      compareFaces ⟨true, false, true, true⟩
        ⟨some 1, 0, 1/2, none, 1, 1, 1⟩ (.pixels 0) (.pixels 1) ≤ 1 ∧
      (0 ≤ (⟨some 1, 0, 1/2, none, 1, 1, 1⟩ : CompareOracles).ssimScore →
        0 ≤ compareFaces ⟨true, false, true, true⟩
          ⟨some 1, 0, 1/2, none, 1, 1, 1⟩ (.pixels 0) (.pixels 1)) :=
  compareFaces_range ⟨true, false, true, true⟩ ⟨some 1, 0, 1/2, none, 1, 1, 1⟩
    (.pixels 0) (.pixels 1) (by decide) (by norm_num) (by norm_num) (by norm_num)

/-- C9 counterexample: with all three channel correlations equal to `-1`
(each `HISTCMP_CORREL` value lies in `[-1, 1]`), the code clamps the
histogram average to 0, so `compare_faces` returns `0`, not the claim's
unclamped `0.5 * 0 + 0.2 * 0 + 0.3 * (-1) = -3/10`. -/
theorem classical_composite_unclamped_refuted :
    compareFaces ⟨false, false, true, true⟩
        ⟨none, 0, 0, some ⟨10, 10, []⟩, -1, -1, -1⟩ (.pixels 0) (.pixels 1) ≠
      (0 : ℚ) * 0.5 +
        (min 1 ((((([] : List ℚ).filter (fun m => m < 50)).length : ℚ) /
          ((min 10 10 : ℕ) : ℚ)) * 2)) * 0.2 +
        (((-1) + (-1) + (-1)) / 3) * 0.3 := by
  have h : compareFaces ⟨false, false, true, true⟩
      ⟨none, 0, 0, some ⟨10, 10, []⟩, -1, -1, -1⟩
      (.pixels 0) (.pixels 1) = 0 := by
    simp [compareFaces, compareFacesFallback, bothPixels, compareWithOrb,
      compareHistograms]
    norm_num
  rw [h]
  norm_num

/-- C9 amended: in the classical fallback path (no DeepFace layer, no
face_recognition, OpenCV and scikit-image present, both encodings pixel
blocks, descriptors present, at least one keypoint on each side),
`compare_faces` equals `0.5 * ssim + 0.2 * orb + 0.3 * hist` with
`orb = min(1, 2 * good / min(kp1, kp2))` counting brute-force Hamming
matches of distance `< 50`, and `hist` the per-channel correlation average
clamped into `[0, 1]`. -/
theorem classical_composite_formula (o : CompareOracles) (t1 t2 : ℕ)
    (od : OrbData) (hod : o.orbData = some od)
    (hkp : 0 < min od.kp1 od.kp2) :
    compareFaces ⟨false, false, true, true⟩ o (.pixels t1) (.pixels t2) =
      o.ssimScore * 0.5 +
        (min 1 (((od.matchDistances.filter (fun m => m < 50)).length : ℚ) /
          ((min od.kp1 od.kp2 : ℕ) : ℚ) * 2)) * 0.2 +
        (max 0 (min 1 ((o.corrR + o.corrG + o.corrB) / 3))) * 0.3 := by
  have hkp0 : ¬(min od.kp1 od.kp2 = 0) := by omega
  simp [compareFaces, compareFacesFallback, bothPixels, compareWithOrb,
    compareHistograms, hod, hkp0]

/-- Witness for `classical_composite_formula` at concrete oracle values. -/
theorem classical_composite_formula_witness :
    compareFaces ⟨false, false, true, true⟩
        ⟨none, 0, 1/2, some ⟨4, 6, [10, 60]⟩, 1, 1, 1⟩ (.pixels 0) (.pixels 1) =
      (1/2 : ℚ) * 0.5 +
        (min 1 (((([10, 60] : List ℚ).filter (fun m => m < 50)).length : ℚ) /
          ((min 4 6 : ℕ) : ℚ) * 2)) * 0.2 +
        (max 0 (min 1 (((1 : ℚ) + 1 + 1) / 3))) * 0.3 :=
  classical_composite_formula ⟨none, 0, 1/2, some ⟨4, 6, [10, 60]⟩, 1, 1, 1⟩
    0 1 ⟨4, 6, [10, 60]⟩ rfl (by norm_num)

/-! ## verify_user_face

Embeds `FaceAuthenticationService.verify_user_face` (lines 393-489) and
`_log_authentication` (584-598).  The two `base64_to_image` calls are the
only statements in the `try` block that can raise (the ORM lookups that
raise `DoesNotExist` are each caught locally and modelled by the
`passportPhoto : Option`, and `extract_face_encoding`, `compare_faces` and
`_log_authentication` swallow their exceptions internally); a raise is
modelled as `Except.error` and lands in the `except` clause.  The
persistence call in `_log_authentication` is modelled as an append to a
log list.
-/

/-- `FaceAuthenticationLog.AuthStatus` (passport_models.py lines 337-343). -/
inductive AuthStatus
  | SUCCESS | FAILED | NO_FACE | MULTIPLE_FACES | LOW_QUALITY | TIMEOUT
deriving DecidableEq

/-- The user-facing messages produced by `verify_user_face`.  Constructors
stand for the exact source strings:
`passportPhotoMissing` = "Passport fotosi topilmadi",
`noFacePassport` = "Passport rasmida yuz topilmadi",
`noFaceInput` = "Kiritilgan rasmda yuz topilmadi",
`faceConfirmed` = "Yuz muvaffaqiyatli tasdiqlandi",
`retryBetterLight` = "Yuz qisman mos keldi. Iltimos, yaxshi yoritilgan
joyda qayta urinib koring",
`faceMismatch` = "Yuz mos kelmadi",
`internalError e` = "Xatolik yuz berdi: {e}" (the exception text is
abstracted to a tag `e`),
`empty` = the initial empty message. -/
inductive AuthMessage
  | passportPhotoMissing | noFacePassport | noFaceInput
  | faceConfirmed | retryBetterLight | faceMismatch
  | internalError (e : ℕ) | empty
deriving DecidableEq

/-- `MIN_MATCH_THRESHOLD = 0.65` (face_auth_service.py line 54). -/
def MIN_MATCH_THRESHOLD : ℚ := 0.65

/-- `HIGH_MATCH_THRESHOLD = 0.80` (face_auth_service.py line 55). -/
def HIGH_MATCH_THRESHOLD : ℚ := 0.80

/-- A `FaceAuthenticationLog` row as written by `_log_authentication`
(the `ip_address`/`user_agent` columns carry no verified logic and are
omitted). -/
structure LogEntry where
  status : AuthStatus
  matchScore : Option ℚ
  errorMessage : AuthMessage
deriving DecidableEq

/-- The result dict of `verify_user_face`: always carries the four keys
`success`, `message`, `match_score`, `status`. -/
structure VerifyResult where
  success : Bool
  message : AuthMessage
  matchScore : ℚ
  status : AuthStatus
deriving DecidableEq

/-- `_log_authentication` — appends one `FaceAuthenticationLog` row. -/
def logAuthentication (log : List LogEntry) (status : AuthStatus)
    (matchScore : Option ℚ) (errorMessage : AuthMessage) : List LogEntry :=
  log ++ [⟨status, matchScore, errorMessage⟩]

/-- The per-call inputs of `verify_user_face`, with library/ORM results as
oracles: the reference-photo lookup chain (UserProfile photo, then
UserPassportLink, then PassportData — `none` when all fail), the outcome
of each `base64_to_image` call (`Except.error e` = the call raised), the
`extract_face_encoding` results, and the `compare_faces` score. -/
structure VerifyInputs where
  passportPhoto : Option String
  passportDecode : Except ℕ Unit
  passportEncoding : Option FaceEncoding
  inputDecode : Except ℕ Unit
  inputEncoding : Option FaceEncoding
  score : ℚ

/-- `verify_user_face` (lines 393-489), threading the audit-log list. -/
def verifyUserFace (inp : VerifyInputs) (log : List LogEntry) :
    VerifyResult × List LogEntry :=
  match inp.passportPhoto with
  | none =>
    (⟨false, .passportPhotoMissing, 0, .FAILED⟩,
      logAuthentication log .FAILED none .passportPhotoMissing)
  | some _ =>
    match inp.passportDecode with
    | .error e =>
      (⟨false, .internalError e, 0, .FAILED⟩,
        logAuthentication log .FAILED none (.internalError e))
    | .ok _ =>
      match inp.passportEncoding with
      | none =>
        (⟨false, .noFacePassport, 0, .NO_FACE⟩,
          logAuthentication log .NO_FACE none .noFacePassport)
      | some _ =>
        match inp.inputDecode with
        | .error e =>
          (⟨false, .internalError e, 0, .FAILED⟩,
            logAuthentication log .FAILED none (.internalError e))
        | .ok _ =>
          match inp.inputEncoding with
          | none =>
            (⟨false, .noFaceInput, 0, .NO_FACE⟩,
              logAuthentication log .NO_FACE (some 0) .noFaceInput)
          | some _ =>
            if inp.score ≥ HIGH_MATCH_THRESHOLD then
              (⟨true, .faceConfirmed, inp.score, .SUCCESS⟩,
                logAuthentication log .SUCCESS (some inp.score) .faceConfirmed)
            else if inp.score ≥ MIN_MATCH_THRESHOLD then
              (⟨false, .retryBetterLight, inp.score, .LOW_QUALITY⟩,
                logAuthentication log .LOW_QUALITY (some inp.score)
                  .retryBetterLight)
            else
              (⟨false, .faceMismatch, inp.score, .FAILED⟩,
                logAuthentication log .FAILED (some inp.score) .faceMismatch)

/-- C1: whenever the reference photo exists, both images decode, both
encodings are extracted and a score `s` is computed, `verify_user_face`
classifies with the two fixed thresholds: `s ≥ 0.80` gives `SUCCESS` with
`success = true`; `0.65 ≤ s < 0.80` gives `LOW_QUALITY` with
`success = false`; `s < 0.65` gives `FAILED` with `success = false`.
The comparisons are `≥`, so the boundaries `s = 0.80` and `s = 0.65`
land in `SUCCESS` and `LOW_QUALITY` respectively. -/
theorem verify_user_face_thresholds (inp : VerifyInputs)
    (log : List LogEntry) (p : String) (hp : inp.passportPhoto = some p)
    (h1 : inp.passportDecode = .ok ())
    (e1 : FaceEncoding) (he1 : inp.passportEncoding = some e1)
    (h2 : inp.inputDecode = .ok ())
    (e2 : FaceEncoding) (he2 : inp.inputEncoding = some e2) :
    ((0.80 : ℚ) ≤ inp.score →
      (verifyUserFace inp log).1.status = .SUCCESS ∧
        (verifyUserFace inp log).1.success = true) ∧
    ((0.65 : ℚ) ≤ inp.score → inp.score < 0.80 →
      (verifyUserFace inp log).1.status = .LOW_QUALITY ∧
        (verifyUserFace inp log).1.success = false) ∧
    (inp.score < (0.65 : ℚ) →
      (verifyUserFace inp log).1.status = .FAILED ∧
        (verifyUserFace inp log).1.success = false) ∧
    (verifyUserFace inp log).1.matchScore = inp.score := by
  simp only [verifyUserFace, hp, h1, he1, h2, he2, HIGH_MATCH_THRESHOLD,
    MIN_MATCH_THRESHOLD, ge_iff_le]
  refine ⟨fun h => ?_, fun h h' => ?_, fun h => ?_, ?_⟩
  · rw [if_pos h]
    exact ⟨rfl, rfl⟩
  · rw [if_neg (by linarith), if_pos h]
    exact ⟨rfl, rfl⟩
  · rw [if_neg (by linarith), if_neg (by linarith)]
    exact ⟨rfl, rfl⟩
  · split
    · rfl
    · split <;> rfl

/-- Witness for `verify_user_face_thresholds` at the boundary score
`s = 0.65` exactly, which classifies as `LOW_QUALITY`. -/
theorem verify_user_face_thresholds_witness :
    (verifyUserFace ⟨some "p", .ok (), some (.pixels 0), .ok (),
        some (.pixels 1), 0.65⟩ []).1.status = .LOW_QUALITY ∧
      (verifyUserFace ⟨some "p", .ok (), some (.pixels 0), .ok (),
        some (.pixels 1), 0.65⟩ []).1.success = false :=
  (verify_user_face_thresholds
      ⟨some "p", .ok (), some (.pixels 0), .ok (), some (.pixels 1), 0.65⟩
      [] "p" rfl rfl (.pixels 0) rfl rfl (.pixels 1) rfl).2.1
    (by norm_num) (by norm_num)

/-- C5: every call to `verify_user_face` appends exactly one audit-log row
— on the missing-reference-photo path, both no-face paths, all three score
classifications and both exception paths — and the appended row's status is
the returned status.  Totality of the function (it returns a
`VerifyResult` with all four fields on every input, exceptions included)
models the no-exception-escapes contract. -/
theorem verify_user_face_logs_once (inp : VerifyInputs)
    (log : List LogEntry) :
    ∃ e : LogEntry, (verifyUserFace inp log).2 = log ++ [e] ∧
      e.status = (verifyUserFace inp log).1.status := by
  obtain ⟨photo, pdec, penc, idec, ienc, s⟩ := inp
  cases photo <;> cases pdec <;> cases penc <;> cases idec <;> cases ienc <;>
    simp only [verifyUserFace, logAuthentication] <;>
    first
      | exact ⟨_, rfl, rfl⟩
      | (split
         · exact ⟨_, rfl, rfl⟩
         · split <;> exact ⟨_, rfl, rfl⟩)

end FaceAuthService

namespace LivenessService

/-! ## LivenessVerificationService

Embeds `users/liveness_service.py`.  The Django cache entries for one
identity are gathered into a `CacheState`; the PIL/numpy/scipy-derived
values of the decoded capture are gathered into a `CaptureImage`; `np.log2`
and `hashlib.sha256(...).hexdigest()` are oracle parameters.
-/

/-- The user-facing reasons returned by `verify_liveness` and its checks.
Constructors stand for the exact source strings:
`tooManyAttempts` = "Juda kop urinish. 15 daqiqa kutib turing.",
`invalidFormat` = "Notogri rasm formati",
`tooSmall` = "Rasm juda kichik", `tooLarge` = "Rasm juda katta",
`badAspect` = "Notogri rasm nisbati",
`lowEntropy` = "Rasm sifati past yoki suniy",
`artificialImage` = "Rasm suniy korinadi",
`noCameraNoise` = "Rasm kameradan olinmagan",
`replayedImage` = "Bu rasm avval ishlatilgan",
`tooFastRetry` = "Juda tez urinish",
`noMovement` = "Tirik harakatlar aniqlanmadi",
`lowConfidence` = "Tiriklik ishonchi past",
`lowFaceQuality` = "Yuz sifati past",
`multipleFacesFound` = "Bir nechta yuz aniqlandi",
`ok` = "OK", `confirmed` = "Tiriklik tasdiqlandi". -/
inductive LivenessReason
  | tooManyAttempts | invalidFormat | tooSmall | tooLarge | badAspect
  | lowEntropy | artificialImage | noCameraNoise | replayedImage
  | tooFastRetry | noMovement | lowConfidence | lowFaceQuality
  | multipleFacesFound | ok | confirmed
deriving DecidableEq

/-- The per-identity Django cache entries used by the service.  `none` in
`failedAttempts`/`lastTime` models an absent key (`cache.get` then falls
back to its default, 0).  The lockout entry is written with a 15-minute
timeout (`LOCKOUT_DURATION = 900`) and the others with a 5-minute timeout
(`CACHE_TIMEOUT = 300`); expiry removes a key, which this model represents
by the same `none`/`false` resting values, so expiry is subsumed by the
quantification over states. -/
structure CacheState where
  lockedOut : Bool
  failedAttempts : Option ℕ
  recentHashes : List String
  lastTime : Option ℚ
deriving DecidableEq

/-- The decoded capture together with the library-computed measurements
the checks read: dimensions (PIL `image.size`), the 256-bin grayscale
histogram (`image.convert('L').histogram()`), the mean border standard
deviation (numpy, `_check_image_genuineness`) and the Laplacian-variance
noise estimate (scipy, `_estimate_noise_level`; 0.0 when scipy is missing
or the filter raises). -/
structure CaptureImage where
  width : ℕ
  height : ℕ
  histogram : List ℕ
  borderStd : ℚ
  noiseLevel : ℚ
deriving DecidableEq

/-- `liveness_data` after the `.get(..., False)` / `.get('confidence', 0)`
defaulting in `_verify_frontend_liveness`: a missing key is identical to a
`false`/`0` entry, so the defaulted record is the faithful quotient of an
arbitrary dict. -/
structure LivenessHints where
  blinkDetected : Bool
  headMovement : Bool
  expressionChange : Bool
  faceQuality : Bool
  multipleFaces : Bool
  confidence : ℚ
deriving DecidableEq

/-- `MAX_FAILED_ATTEMPTS = 5` (liveness_service.py line 37). -/
def MAX_FAILED_ATTEMPTS : ℕ := 5

/-- `MIN_IMAGE_ENTROPY = 4.0` (line 30). -/
def MIN_IMAGE_ENTROPY : ℚ := 4

/-- `MIN_TIME_BETWEEN_ATTEMPTS = 2` seconds (line 32). -/
def MIN_TIME_BETWEEN_ATTEMPTS : ℚ := 2

/-- `_check_rate_limit` (lines 94-113): reject while locked out; otherwise,
if the failed-attempt count has reached `MAX_FAILED_ATTEMPTS`, set the
lockout flag (with `LOCKOUT_DURATION = 900` seconds), drop the counter and
reject; otherwise pass. -/
def checkRateLimit (s : CacheState) : Bool × CacheState :=
  if s.lockedOut then (false, s)
  else if MAX_FAILED_ATTEMPTS ≤ s.failedAttempts.getD 0 then
    (false, { s with lockedOut := true, failedAttempts := none })
  else (true, s)

/-- `_calculate_image_entropy` (lines 164-187): Shannon entropy of the
grayscale histogram, written against an oracle `log2` for `np.log2`. -/
def calculateImageEntropy (log2 : ℚ → ℚ) (hist : List ℕ) : ℚ :=
  let total : ℕ := hist.foldl (· + ·) 0
  hist.foldl
    (fun e c =>
      if 0 < c then e - ((c : ℚ) / (total : ℚ)) * log2 ((c : ℚ) / (total : ℚ))
      else e)
    0

/-- `_validate_image_quality` (lines 139-162): minimum/maximum dimensions,
aspect ratio in `[0.5, 2.0]`, entropy at least `MIN_IMAGE_ENTROPY`. -/
def validateImageQuality (log2 : ℚ → ℚ) (img : CaptureImage) :
    Bool × LivenessReason :=
  if img.width < 200 ∨ img.height < 200 then (false, .tooSmall)
  else if 4000 < img.width ∨ 4000 < img.height then (false, .tooLarge)
  else if (img.width : ℚ) / (img.height : ℚ) < 0.5 ∨
      2 < (img.width : ℚ) / (img.height : ℚ) then (false, .badAspect)
  else if calculateImageEntropy log2 img.histogram < MIN_IMAGE_ENTROPY then
    (false, .lowEntropy)
  else (true, .ok)

/-- `_check_image_genuineness` (lines 189-220): reject when the mean border
standard deviation is below 5 or the noise estimate is below 0.5. -/
def checkImageGenuineness (img : CaptureImage) : Bool × LivenessReason :=
  if img.borderStd < 5 then (false, .artificialImage)
  else if img.noiseLevel < 0.5 then (false, .noCameraNoise)
  else (true, .ok)

/-- Python `l[-10:]`: the last (at most) 10 elements. -/
def pyLastTen (l : List String) : List String :=
  l.drop (l.length - 10)

/-- `_check_uniqueness` (lines 247-275): reject a hash already in the
recent list, reject an attempt less than `MIN_TIME_BETWEEN_ATTEMPTS`
seconds after the previous one, and otherwise append the hash (keeping the
last 10) and record the attempt time. -/
def checkUniqueness (imageHash : String) (now : ℚ) (s : CacheState) :
    (Bool × LivenessReason) × CacheState :=
  if imageHash ∈ s.recentHashes then ((false, .replayedImage), s)
  else if now - s.lastTime.getD 0 < MIN_TIME_BETWEEN_ATTEMPTS then
    ((false, .tooFastRetry), s)
  else
    ((true, .ok),
      { s with recentHashes := pyLastTen (s.recentHashes ++ [imageHash]),
               lastTime := some now })

/-- `_verify_frontend_liveness` (lines 277-307). -/
def verifyFrontendLiveness (h : LivenessHints) : Bool × LivenessReason :=
  if !(h.blinkDetected || h.headMovement || h.expressionChange) then
    (false, .noMovement)
  else if h.confidence < 0.5 then (false, .lowConfidence)
  else if !h.faceQuality then (false, .lowFaceQuality)
  else if h.multipleFaces then (false, .multipleFacesFound)
  else (true, .ok)

/-- `_store_attempt` (lines 309-324): increment the failed-attempt counter
on failure, delete it on success. -/
def storeAttempt (success : Bool) (s : CacheState) : CacheState :=
  if success then { s with failedAttempts := none }
  else { s with failedAttempts := some (s.failedAttempts.getD 0 + 1) }

/-- The per-call inputs of `verify_liveness`: the raw payload string, the
`_decode_image` outcome (`none` = invalid base64 or invalid image bytes),
the optional frontend hints and the call time `time.time()`. -/
structure LivenessCall where
  imageData : String
  decoded : Option CaptureImage
  hints : Option LivenessHints
  now : ℚ

/-- `verify_liveness` (lines 40-92): the sequential short-circuiting
checks, with `hashFn` standing for `hashlib.sha256(data.encode())
.hexdigest()` and `log2` for `np.log2`.  Returns the `(is_live, reason)`
pair and the updated cache state. -/
def verifyLiveness (hashFn : String → String) (log2 : ℚ → ℚ)
    (c : LivenessCall) (s : CacheState) :
    (Bool × LivenessReason) × CacheState :=
  match checkRateLimit s with
  | (false, s1) => ((false, .tooManyAttempts), s1)
  | (true, s1) =>
    match c.decoded with
    | none => ((false, .invalidFormat), s1)
    | some img =>
      match validateImageQuality log2 img with
      | (false, r) => ((false, r), s1)
      | (true, _) =>
        match checkImageGenuineness img with
        | (false, r) => ((false, r), s1)
        | (true, _) =>
          match checkUniqueness (hashFn c.imageData) c.now s1 with
          | ((false, r), s2) => ((false, r), s2)
          | ((true, _), s2) =>
            match c.hints with
            | some h =>
              match verifyFrontendLiveness h with
              | (false, r) => ((false, r), s2)
              | (true, _) => ((true, .confirmed), storeAttempt true s2)
            | none => ((true, .confirmed), storeAttempt true s2)

lemma validateImageQuality_false_reason (log2 : ℚ → ℚ) (img : CaptureImage)
    (r : LivenessReason) (h : validateImageQuality log2 img = (false, r)) :
    r = .tooSmall ∨ r = .tooLarge ∨ r = .badAspect ∨ r = .lowEntropy := by
  unfold validateImageQuality at h
  split_ifs at h <;> simp only [Prod.mk.injEq] at h <;> simp_all

lemma checkImageGenuineness_false_reason (img : CaptureImage)
    (r : LivenessReason) (h : checkImageGenuineness img = (false, r)) :
    r = .artificialImage ∨ r = .noCameraNoise := by
  unfold checkImageGenuineness at h
  split_ifs at h <;> simp only [Prod.mk.injEq] at h <;> simp_all

lemma checkUniqueness_false_reason (ih : String) (now : ℚ) (s : CacheState)
    (r : LivenessReason) (s2 : CacheState)
    (h : checkUniqueness ih now s = ((false, r), s2)) :
    r = .replayedImage ∨ r = .tooFastRetry := by
  unfold checkUniqueness at h
  split_ifs at h <;> simp only [Prod.mk.injEq] at h <;> simp_all

lemma verifyFrontendLiveness_false_reason (hint : LivenessHints)
    (r : LivenessReason) (h : verifyFrontendLiveness hint = (false, r)) :
    r = .noMovement ∨ r = .lowConfidence ∨ r = .lowFaceQuality ∨
      r = .multipleFacesFound := by
  unfold verifyFrontendLiveness at h
  split_ifs at h <;> simp only [Prod.mk.injEq] at h <;> simp_all

/-- C8: the quality stage rejects exactly the images with width or height
below 200, width or height above 4000, aspect ratio (width divided by
height) outside `[0.5, 2.0]`, or grayscale-histogram Shannon entropy below
4.0 bits; an image within all four bounds passes. -/
theorem image_quality_bounds (log2 : ℚ → ℚ) (img : CaptureImage) :
    (validateImageQuality log2 img).1 = false ↔
      (img.width < 200 ∨ img.height < 200 ∨
        4000 < img.width ∨ 4000 < img.height ∨
        (img.width : ℚ) / (img.height : ℚ) < 0.5 ∨
        2 < (img.width : ℚ) / (img.height : ℚ) ∨
        calculateImageEntropy log2 img.histogram < 4) := by
  unfold validateImageQuality
  rw [MIN_IMAGE_ENTROPY]
  split_ifs with h1 h2 h3 h4
  · refine iff_of_true rfl ?_
    rcases h1 with h | h
    · exact Or.inl h
    · exact Or.inr (Or.inl h)
  · refine iff_of_true rfl ?_
    rcases h2 with h | h
    · exact Or.inr (Or.inr (Or.inl h))
    · exact Or.inr (Or.inr (Or.inr (Or.inl h)))
  · refine iff_of_true rfl ?_
    rcases h3 with h | h
    · exact Or.inr (Or.inr (Or.inr (Or.inr (Or.inl h))))
    · exact Or.inr (Or.inr (Or.inr (Or.inr (Or.inr (Or.inl h)))))
  · exact iff_of_true rfl
      (Or.inr (Or.inr (Or.inr (Or.inr (Or.inr (Or.inr h4))))))
  · refine iff_of_false (by simp) ?_
    push_neg at h1 h2 h3
    rintro (h | h | h | h | h | h | h)
    · omega
    · omega
    · omega
    · omega
    · linarith [h3.1]
    · linarith [h3.2]
    · exact absurd h h4

/-- C10: `verify_liveness` is total over all inputs — including a payload
that fails base64 or image decoding (`decoded = none`) and arbitrary or
missing hint fields — and always returns a boolean-reason pair: either the
success pair, or `false` with one of the failure reasons (never the
internal `ok`/`confirmed` markers); in particular a decode failure on an
identity that is not rate-limited yields the invalid-format rejection. -/
theorem verify_liveness_total (hashFn : String → String) (log2 : ℚ → ℚ)
    (c : LivenessCall) (s : CacheState) :
    ((verifyLiveness hashFn log2 c s).1 = (true, .confirmed) ∨
      ((verifyLiveness hashFn log2 c s).1.1 = false ∧
        (verifyLiveness hashFn log2 c s).1.2 ≠ .confirmed ∧
        (verifyLiveness hashFn log2 c s).1.2 ≠ .ok)) ∧
    (c.decoded = none → s.lockedOut = false →
      s.failedAttempts.getD 0 < MAX_FAILED_ATTEMPTS →
      (verifyLiveness hashFn log2 c s).1 = (false, .invalidFormat)) := by
  constructor
  · unfold verifyLiveness
    split
    · right; exact ⟨rfl, by simp, by simp⟩
    · split
      · right; exact ⟨rfl, by simp, by simp⟩
      · split
        · rename_i heq
          rcases validateImageQuality_false_reason _ _ _ heq with h | h | h | h <;>
            subst h <;> right <;> exact ⟨rfl, by simp, by simp⟩
        · split
          · rename_i heq
            rcases checkImageGenuineness_false_reason _ _ heq with h | h <;>
              subst h <;> right <;> exact ⟨rfl, by simp, by simp⟩
          · split
            · rename_i heq
              rcases checkUniqueness_false_reason _ _ _ _ _ heq with h | h <;>
                subst h <;> right <;> exact ⟨rfl, by simp, by simp⟩
            · split
              · split
                · rename_i heq
                  rcases verifyFrontendLiveness_false_reason _ _ heq
                    with h | h | h | h <;>
                    subst h <;> right <;> exact ⟨rfl, by simp, by simp⟩
                · left; rfl
              · left; rfl
  · intro hdec hlo hfa
    have hrl : checkRateLimit s = (true, s) := by
      unfold checkRateLimit
      rw [if_neg (by simp [hlo]), if_neg (by omega)]
    unfold verifyLiveness
    rw [hrl, hdec]

/-- Witness for `verify_liveness_total` at a concrete failed decode from a
fresh cache state. -/
theorem verify_liveness_total_witness :
    (verifyLiveness id id ⟨"x", none, none, 0⟩
      ⟨false, none, [], none⟩).1 = (false, .invalidFormat) :=
  (verify_liveness_total id id ⟨"x", none, none, 0⟩
    ⟨false, none, [], none⟩).2 rfl rfl (by simp [MAX_FAILED_ATTEMPTS])

lemma checkRateLimit_snd (s : CacheState) :
    (checkRateLimit s).2.recentHashes = s.recentHashes ∧
    (checkRateLimit s).2.lastTime = s.lastTime := by
  unfold checkRateLimit
  split_ifs <;> exact ⟨rfl, rfl⟩

lemma checkRateLimit_true (s s1 : CacheState)
    (h : checkRateLimit s = (true, s1)) :
    s1 = s ∧ s.lockedOut = false ∧
      s.failedAttempts.getD 0 < MAX_FAILED_ATTEMPTS := by
  unfold checkRateLimit at h
  split_ifs at h with h1 h2
  · simp at h
  · simp at h
  · simp only [Prod.mk.injEq] at h
    exact ⟨h.2.symm, by simpa using h1, by omega⟩

lemma checkRateLimit_fst_true (s : CacheState)
    (h : (checkRateLimit s).1 = true) : checkRateLimit s = (true, s) := by
  unfold checkRateLimit at *
  split_ifs at * <;> simp_all

lemma validateImageQuality_fst_true (log2 : ℚ → ℚ) (img : CaptureImage)
    (h : (validateImageQuality log2 img).1 = true) :
    validateImageQuality log2 img = (true, .ok) := by
  unfold validateImageQuality at *
  split_ifs at * <;> simp_all

lemma checkImageGenuineness_fst_true (img : CaptureImage)
    (h : (checkImageGenuineness img).1 = true) :
    checkImageGenuineness img = (true, .ok) := by
  unfold checkImageGenuineness at *
  split_ifs at * <;> simp_all

lemma checkUniqueness_false (ih : String) (now : ℚ) (s : CacheState)
    (r : LivenessReason) (s2 : CacheState)
    (h : checkUniqueness ih now s = ((false, r), s2)) : s2 = s := by
  unfold checkUniqueness at h
  split_ifs at h <;> simp only [Prod.mk.injEq] at h <;> tauto

lemma checkUniqueness_true (ih : String) (now : ℚ) (s : CacheState)
    (r : LivenessReason) (s2 : CacheState)
    (h : checkUniqueness ih now s = ((true, r), s2)) :
    ih ∉ s.recentHashes ∧
      s2 = { s with recentHashes := pyLastTen (s.recentHashes ++ [ih]),
                    lastTime := some now } := by
  unfold checkUniqueness at h
  split_ifs at h with hmem htime
  · simp at h
  · simp at h
  · simp only [Prod.mk.injEq] at h
    exact ⟨hmem, h.2.symm⟩

lemma storeAttempt_fields (b : Bool) (s : CacheState) :
    (storeAttempt b s).recentHashes = s.recentHashes ∧
    (storeAttempt b s).lastTime = s.lastTime ∧
    (storeAttempt b s).lockedOut = s.lockedOut := by
  unfold storeAttempt
  split <;> exact ⟨rfl, rfl, rfl⟩

lemma pyLastTen_le (l : List String) : (pyLastTen l).length ≤ 10 := by
  unfold pyLastTen
  rw [List.length_drop]
  omega

/-- Master state-evolution case split for one `verify_liveness` call:
either the replay list and timestamp are untouched and the call was
rejected, or the hash was fresh, got appended (keeping the last 10) and
the timestamp was set to the call time. -/
lemma verifyLiveness_state (hashFn : String → String) (log2 : ℚ → ℚ)
    (c : LivenessCall) (s : CacheState) :
    ((verifyLiveness hashFn log2 c s).2.recentHashes = s.recentHashes ∧
      (verifyLiveness hashFn log2 c s).2.lastTime = s.lastTime ∧
      (verifyLiveness hashFn log2 c s).1.1 = false) ∨
    (hashFn c.imageData ∉ s.recentHashes ∧
      (verifyLiveness hashFn log2 c s).2.recentHashes =
        pyLastTen (s.recentHashes ++ [hashFn c.imageData]) ∧
      (verifyLiveness hashFn log2 c s).2.lastTime = some c.now) := by
  unfold verifyLiveness
  split
  · rename_i s1 heq
    have hs := checkRateLimit_snd s
    rw [heq] at hs
    exact Or.inl ⟨hs.1, hs.2, rfl⟩
  · rename_i s1 heq
    obtain ⟨rfl, -, -⟩ := checkRateLimit_true s s1 heq
    split
    · exact Or.inl ⟨rfl, rfl, rfl⟩
    · split
      · exact Or.inl ⟨rfl, rfl, rfl⟩
      · split
        · exact Or.inl ⟨rfl, rfl, rfl⟩
        · split
          · rename_i r s2 hu
            obtain rfl := checkUniqueness_false _ _ _ _ _ hu
            exact Or.inl ⟨rfl, rfl, rfl⟩
          · rename_i r s2 hu
            obtain ⟨hmem, rfl⟩ := checkUniqueness_true _ _ _ _ _ hu
            split
            · split
              · exact Or.inr ⟨hmem, rfl, rfl⟩
              · exact Or.inr ⟨hmem, (storeAttempt_fields _ _).1,
                  (storeAttempt_fields _ _).2.1⟩
            · exact Or.inr ⟨hmem, (storeAttempt_fields _ _).1,
                (storeAttempt_fields _ _).2.1⟩

/-- C7: the replay cache invariants.  A capture whose hash is already in
the identity's recent-hash list can never verify and leaves the list
unchanged (and, whenever the earlier checks pass so the uniqueness check
is the one that fires, the rejection reason is specifically the replay
reason); the list never grows beyond 10 entries; and when an 11th hash is
added the oldest entry is the one evicted. -/
theorem replay_cache_invariants (hashFn : String → String) (log2 : ℚ → ℚ)
    (c : LivenessCall) (s : CacheState) :
    (hashFn c.imageData ∈ s.recentHashes →
      (verifyLiveness hashFn log2 c s).1.1 = false ∧
      (verifyLiveness hashFn log2 c s).2.recentHashes = s.recentHashes) ∧
    (s.recentHashes.length ≤ 10 →
      (verifyLiveness hashFn log2 c s).2.recentHashes.length ≤ 10) ∧
    (s.recentHashes.length = 10 →
      (verifyLiveness hashFn log2 c s).2.recentHashes ≠ s.recentHashes →
      (verifyLiveness hashFn log2 c s).2.recentHashes =
        s.recentHashes.tail ++ [hashFn c.imageData]) ∧
    (hashFn c.imageData ∈ s.recentHashes → (checkRateLimit s).1 = true →
      ∀ img, c.decoded = some img →
        (validateImageQuality log2 img).1 = true →
        (checkImageGenuineness img).1 = true →
        (verifyLiveness hashFn log2 c s).1 = (false, .replayedImage)) := by
  refine ⟨?_, ?_, ?_, ?_⟩
  · intro hmem
    rcases verifyLiveness_state hashFn log2 c s with ⟨h1, -, h3⟩ | ⟨h1, -, -⟩
    · exact ⟨h3, h1⟩
    · exact absurd hmem h1
  · intro hlen
    rcases verifyLiveness_state hashFn log2 c s with ⟨h1, -, -⟩ | ⟨-, h2, -⟩
    · rw [h1]; exact hlen
    · rw [h2]; exact pyLastTen_le _
  · intro hlen hne
    rcases verifyLiveness_state hashFn log2 c s with ⟨h1, -, -⟩ | ⟨hmem, h2, -⟩
    · exact absurd h1 hne
    · rw [h2]
      unfold pyLastTen
      rw [List.length_append, List.length_singleton, hlen,
        List.drop_append_of_le_length (by omega), List.drop_one]
  · intro hmem hrl img hdec hq hg
    have hrl' := checkRateLimit_fst_true s hrl
    have hq' := validateImageQuality_fst_true log2 img hq
    have hg' := checkImageGenuineness_fst_true img hg
    have hu : checkUniqueness (hashFn c.imageData) c.now s =
        ((false, .replayedImage), s) := by
      unfold checkUniqueness
      rw [if_pos hmem]
    unfold verifyLiveness
    simp only [hrl', hdec, hq', hg', hu]

/-- Witness for `replay_cache_invariants`: a byte-identical second capture
is rejected with the replay reason. -/
theorem replay_cache_invariants_witness :
    (verifyLiveness id (fun _ => -5)
      ⟨"a", some ⟨300, 300, [1], 10, 1⟩, none, 100⟩
      ⟨false, none, ["a"], none⟩).1 = (false, .replayedImage) :=
  (replay_cache_invariants id (fun _ => -5)
      ⟨"a", some ⟨300, 300, [1], 10, 1⟩, none, 100⟩
      ⟨false, none, ["a"], none⟩).2.2.2
    (by simp) (by rfl) ⟨300, 300, [1], 10, 1⟩ rfl
    (by norm_num [validateImageQuality, calculateImageEntropy,
      MIN_IMAGE_ENTROPY])
    (by norm_num [checkImageGenuineness])

/-- C4 counterexample: a call that passes every check up to and including
the uniqueness check but is then rejected by the client-supplied liveness
hints (no movement indicator) still appends the capture hash to the replay
cache and updates the last-attempt timestamp, because `_check_uniqueness`
writes both before `_verify_frontend_liveness` runs. -/
theorem rejected_call_still_updates_cache :
    (verifyLiveness id (fun _ => -5)
        ⟨"b", some ⟨300, 300, [1], 10, 1⟩,
          some ⟨false, false, false, false, false, 0⟩, 100⟩
        ⟨false, none, [], none⟩).1.1 = false ∧
    (verifyLiveness id (fun _ => -5)
        ⟨"b", some ⟨300, 300, [1], 10, 1⟩,
          some ⟨false, false, false, false, false, 0⟩, 100⟩
        ⟨false, none, [], none⟩).2.recentHashes = ["b"] ∧
    (verifyLiveness id (fun _ => -5)
        ⟨"b", some ⟨300, 300, [1], 10, 1⟩,
          some ⟨false, false, false, false, false, 0⟩, 100⟩
        ⟨false, none, [], none⟩).2.lastTime = some 100 := by
  norm_num [verifyLiveness, checkRateLimit, validateImageQuality,
    calculateImageEntropy, checkImageGenuineness, checkUniqueness,
    verifyFrontendLiveness, storeAttempt, pyLastTen, MAX_FAILED_ATTEMPTS,
    MIN_IMAGE_ENTROPY, MIN_TIME_BETWEEN_ATTEMPTS]

/-- Evaluation equation: a rate-limited call short-circuits. -/
lemma vl_rl_false (hashFn : String → String) (log2 : ℚ → ℚ)
    (c : LivenessCall) (s s1 : CacheState)
    (h : checkRateLimit s = (false, s1)) :
    verifyLiveness hashFn log2 c s = ((false, .tooManyAttempts), s1) := by
  unfold verifyLiveness
  simp only [h]

/-- Evaluation equation: a decode failure. -/
lemma vl_decode_none (hashFn : String → String) (log2 : ℚ → ℚ)
    (c : LivenessCall) (s s1 : CacheState)
    (h1 : checkRateLimit s = (true, s1)) (h2 : c.decoded = none) :
    verifyLiveness hashFn log2 c s = ((false, .invalidFormat), s1) := by
  unfold verifyLiveness
  simp only [h1, h2]

/-- Evaluation equation: a quality rejection. -/
lemma vl_quality_false (hashFn : String → String) (log2 : ℚ → ℚ)
    (c : LivenessCall) (s s1 : CacheState) (img : CaptureImage)
    (r : LivenessReason)
    (h1 : checkRateLimit s = (true, s1)) (h2 : c.decoded = some img)
    (h3 : validateImageQuality log2 img = (false, r)) :
    verifyLiveness hashFn log2 c s = ((false, r), s1) := by
  unfold verifyLiveness
  simp only [h1, h2, h3]

/-- Evaluation equation: a genuineness rejection. -/
lemma vl_genuine_false (hashFn : String → String) (log2 : ℚ → ℚ)
    (c : LivenessCall) (s s1 : CacheState) (img : CaptureImage)
    (rq r : LivenessReason)
    (h1 : checkRateLimit s = (true, s1)) (h2 : c.decoded = some img)
    (h3 : validateImageQuality log2 img = (true, rq))
    (h4 : checkImageGenuineness img = (false, r)) :
    verifyLiveness hashFn log2 c s = ((false, r), s1) := by
  unfold verifyLiveness
  simp only [h1, h2, h3, h4]

/-- Evaluation equation: a uniqueness rejection. -/
lemma vl_uniq_false (hashFn : String → String) (log2 : ℚ → ℚ)
    (c : LivenessCall) (s s1 s2 : CacheState) (img : CaptureImage)
    (rq rg r : LivenessReason)
    (h1 : checkRateLimit s = (true, s1)) (h2 : c.decoded = some img)
    (h3 : validateImageQuality log2 img = (true, rq))
    (h4 : checkImageGenuineness img = (true, rg))
    (h5 : checkUniqueness (hashFn c.imageData) c.now s1 = ((false, r), s2)) :
    verifyLiveness hashFn log2 c s = ((false, r), s2) := by
  unfold verifyLiveness
  simp only [h1, h2, h3, h4, h5]

/-- Evaluation equation: full success with no client hints. -/
lemma vl_pass_nohints (hashFn : String → String) (log2 : ℚ → ℚ)
    (c : LivenessCall) (s s1 s2 : CacheState) (img : CaptureImage)
    (rq rg ru : LivenessReason)
    (h1 : checkRateLimit s = (true, s1)) (h2 : c.decoded = some img)
    (h3 : validateImageQuality log2 img = (true, rq))
    (h4 : checkImageGenuineness img = (true, rg))
    (h5 : checkUniqueness (hashFn c.imageData) c.now s1 = ((true, ru), s2))
    (h6 : c.hints = none) :
    verifyLiveness hashFn log2 c s =
      ((true, .confirmed), storeAttempt true s2) := by
  unfold verifyLiveness
  simp only [h1, h2, h3, h4, h5, h6]

/-- Evaluation equation: a client-hints rejection after the uniqueness
check already passed. -/
lemma vl_hints_false (hashFn : String → String) (log2 : ℚ → ℚ)
    (c : LivenessCall) (s s1 s2 : CacheState) (img : CaptureImage)
    (rq rg ru r : LivenessReason) (hint : LivenessHints)
    (h1 : checkRateLimit s = (true, s1)) (h2 : c.decoded = some img)
    (h3 : validateImageQuality log2 img = (true, rq))
    (h4 : checkImageGenuineness img = (true, rg))
    (h5 : checkUniqueness (hashFn c.imageData) c.now s1 = ((true, ru), s2))
    (h6 : c.hints = some hint)
    (h7 : verifyFrontendLiveness hint = (false, r)) :
    verifyLiveness hashFn log2 c s = ((false, r), s2) := by
  unfold verifyLiveness
  simp only [h1, h2, h3, h4, h5, h6, h7]

/-- Evaluation equation: full success with passing client hints. -/
lemma vl_hints_true (hashFn : String → String) (log2 : ℚ → ℚ)
    (c : LivenessCall) (s s1 s2 : CacheState) (img : CaptureImage)
    (rq rg ru rf : LivenessReason) (hint : LivenessHints)
    (h1 : checkRateLimit s = (true, s1)) (h2 : c.decoded = some img)
    (h3 : validateImageQuality log2 img = (true, rq))
    (h4 : checkImageGenuineness img = (true, rg))
    (h5 : checkUniqueness (hashFn c.imageData) c.now s1 = ((true, ru), s2))
    (h6 : c.hints = some hint)
    (h7 : verifyFrontendLiveness hint = (true, rf)) :
    verifyLiveness hashFn log2 c s =
      ((true, .confirmed), storeAttempt true s2) := by
  unfold verifyLiveness
  simp only [h1, h2, h3, h4, h5, h6, h7]

/-- C4 (amended): the replay-cache append and timestamp update happen
exactly when every check up to and including the uniqueness check passes —
equivalently, exactly when the same call with no client hints would
succeed.  The client-hints stage has no influence on the cache (first
conjunct), a call that clears the pre-hints pipeline records the hash and
timestamp even if the hints then reject it (second conjunct), and a call
rejected before or at the uniqueness check leaves both untouched (third
conjunct).  On calls without client hints this coincides with the original
claim: the cache is updated exactly on success. -/
theorem cache_update_characterization (hashFn : String → String)
    (log2 : ℚ → ℚ) (c : LivenessCall) (s : CacheState) :
    ((verifyLiveness hashFn log2 c s).2.recentHashes =
        (verifyLiveness hashFn log2
          ⟨c.imageData, c.decoded, none, c.now⟩ s).2.recentHashes ∧
      (verifyLiveness hashFn log2 c s).2.lastTime =
        (verifyLiveness hashFn log2
          ⟨c.imageData, c.decoded, none, c.now⟩ s).2.lastTime) ∧
    ((verifyLiveness hashFn log2
        ⟨c.imageData, c.decoded, none, c.now⟩ s).1.1 = true →
      (verifyLiveness hashFn log2 c s).2.recentHashes =
        pyLastTen (s.recentHashes ++ [hashFn c.imageData]) ∧
      (verifyLiveness hashFn log2 c s).2.lastTime = some c.now) ∧
    ((verifyLiveness hashFn log2
        ⟨c.imageData, c.decoded, none, c.now⟩ s).1.1 = false →
      (verifyLiveness hashFn log2 c s).2.recentHashes = s.recentHashes ∧
      (verifyLiveness hashFn log2 c s).2.lastTime = s.lastTime) := by
  obtain ⟨data, dec, hints, now⟩ := c
  dsimp only
  rcases hb : checkRateLimit s with ⟨b, s1⟩
  have hsnd := checkRateLimit_snd s
  rw [hb] at hsnd
  cases b
  · rw [vl_rl_false hashFn log2 ⟨data, dec, hints, now⟩ s s1 hb,
      vl_rl_false hashFn log2 ⟨data, dec, none, now⟩ s s1 hb]
    exact ⟨⟨rfl, rfl⟩, fun h => absurd h (by simp),
      fun _ => ⟨hsnd.1, hsnd.2⟩⟩
  · have heq1 := (checkRateLimit_true s s1 hb).1
    rw [heq1] at hb
    cases dec with
    | none =>
      rw [vl_decode_none hashFn log2 ⟨data, none, hints, now⟩ s s hb rfl,
        vl_decode_none hashFn log2 ⟨data, none, none, now⟩ s s hb rfl]
      exact ⟨⟨rfl, rfl⟩, fun h => absurd h (by simp), fun _ => ⟨rfl, rfl⟩⟩
    | some img =>
      rcases hq : validateImageQuality log2 img with ⟨bq, rq⟩
      cases bq
      · rw [vl_quality_false hashFn log2 ⟨data, some img, hints, now⟩
            s s img rq hb rfl hq,
          vl_quality_false hashFn log2 ⟨data, some img, none, now⟩
            s s img rq hb rfl hq]
        exact ⟨⟨rfl, rfl⟩, fun h => absurd h (by simp), fun _ => ⟨rfl, rfl⟩⟩
      · rcases hg : checkImageGenuineness img with ⟨bg, rg⟩
        cases bg
        · rw [vl_genuine_false hashFn log2 ⟨data, some img, hints, now⟩
              s s img rq rg hb rfl hq hg,
            vl_genuine_false hashFn log2 ⟨data, some img, none, now⟩
              s s img rq rg hb rfl hq hg]
          exact ⟨⟨rfl, rfl⟩, fun h => absurd h (by simp),
            fun _ => ⟨rfl, rfl⟩⟩
        · rcases hu : checkUniqueness (hashFn data) now s with ⟨⟨bu, ru⟩, s2⟩
          cases bu
          · have heq2 := checkUniqueness_false _ _ _ _ _ hu
            rw [heq2] at hu
            rw [vl_uniq_false hashFn log2 ⟨data, some img, hints, now⟩
                s s s img rq rg ru hb rfl hq hg hu,
              vl_uniq_false hashFn log2 ⟨data, some img, none, now⟩
                s s s img rq rg ru hb rfl hq hg hu]
            exact ⟨⟨rfl, rfl⟩, fun h => absurd h (by simp),
              fun _ => ⟨rfl, rfl⟩⟩
          · obtain ⟨hmem, hs2⟩ := checkUniqueness_true _ _ _ _ _ hu
            have e2 := vl_pass_nohints hashFn log2
              ⟨data, some img, none, now⟩ s s s2 img rq rg ru hb rfl hq hg hu rfl
            cases hints with
            | none =>
              rw [vl_pass_nohints hashFn log2 ⟨data, some img, none, now⟩
                  s s s2 img rq rg ru hb rfl hq hg hu rfl]
              refine ⟨⟨rfl, rfl⟩, fun _ => ⟨?_, ?_⟩,
                fun h => absurd h (by simp)⟩
              · rw [(storeAttempt_fields true s2).1, hs2]
              · rw [(storeAttempt_fields true s2).2.1, hs2]
            | some hint =>
              rcases hf : verifyFrontendLiveness hint with ⟨bf, rf⟩
              cases bf
              · rw [vl_hints_false hashFn log2 ⟨data, some img, some hint, now⟩
                    s s s2 img rq rg ru rf hint hb rfl hq hg hu rfl hf, e2]
                refine ⟨⟨((storeAttempt_fields true s2).1).symm,
                    ((storeAttempt_fields true s2).2.1).symm⟩,
                  fun _ => ⟨?_, ?_⟩, fun h => absurd h (by simp)⟩
                · rw [hs2]
                · rw [hs2]
              · rw [vl_hints_true hashFn log2 ⟨data, some img, some hint, now⟩
                    s s s2 img rq rg ru rf hint hb rfl hq hg hu rfl hf, e2]
                refine ⟨⟨rfl, rfl⟩, fun _ => ⟨?_, ?_⟩,
                  fun h => absurd h (by simp)⟩
                · rw [(storeAttempt_fields true s2).1, hs2]
                · rw [(storeAttempt_fields true s2).2.1, hs2]

/-- Witness for `cache_update_characterization` at the counterexample
inputs: the pre-hints pipeline succeeds, so the hash and timestamp are
recorded. -/
theorem cache_update_characterization_witness :
    (verifyLiveness id (fun _ => -5)
        ⟨"b", some ⟨300, 300, [1], 10, 1⟩,
          some ⟨false, false, false, false, false, 0⟩, 100⟩
        ⟨false, none, [], none⟩).2.recentHashes =
      pyLastTen (([] : List String) ++ [id "b"]) ∧
    (verifyLiveness id (fun _ => -5)
        ⟨"b", some ⟨300, 300, [1], 10, 1⟩,
          some ⟨false, false, false, false, false, 0⟩, 100⟩
        ⟨false, none, [], none⟩).2.lastTime = some 100 :=
  (cache_update_characterization id (fun _ => -5)
      ⟨"b", some ⟨300, 300, [1], 10, 1⟩,
        some ⟨false, false, false, false, false, 0⟩, 100⟩
      ⟨false, none, [], none⟩).2.1
    (by norm_num [verifyLiveness, checkRateLimit, validateImageQuality,
      calculateImageEntropy, checkImageGenuineness, checkUniqueness,
      storeAttempt, pyLastTen, MAX_FAILED_ATTEMPTS, MIN_IMAGE_ENTROPY,
      MIN_TIME_BETWEEN_ATTEMPTS])

end LivenessService

/-! ## The face-login flow and the lockout counter

Embeds the control flow of `FaceLoginView.post` (face_auth_views.py lines
117-179) that touches the per-identity liveness cache and the audit log:
`verify_liveness` screens first; only when it passes does
`verify_user_face` run (writing its audit row).  `_store_attempt` is
invoked in the entire repository only by `verify_liveness` itself, with
`success=True`; no caller ever invokes it with `success=False`.
-/

/-- Inputs of one complete login attempt: the liveness call data and the
face-verification oracles. -/
structure AttemptInputs where
  liveness : LivenessService.LivenessCall
  faceAuth : FaceAuthService.VerifyInputs

/-- One `FaceLoginView.post` attempt acting on the liveness cache and the
audit log.  A rejected liveness screening returns 403 before any face
work; a passing one proceeds to `verify_user_face`. -/
def faceLoginAttempt (hashFn : String → String) (log2 : ℚ → ℚ)
    (a : AttemptInputs)
    (st : LivenessService.CacheState × List FaceAuthService.LogEntry) :
    LivenessService.CacheState × List FaceAuthService.LogEntry :=
  match LivenessService.verifyLiveness hashFn log2 a.liveness st.1 with
  | ((false, _), s1) => (s1, st.2)
  | ((true, _), s1) => (s1, (FaceAuthService.verifyUserFace a.faceAuth st.2).2)

/-- A fresh per-identity cache: no lockout flag, no counter, no hashes, no
timestamp. -/
def initialCacheState : LivenessService.CacheState := ⟨false, none, [], none⟩

/-- A sequence of login attempts for one identity. -/
def runAttempts (hashFn : String → String) (log2 : ℚ → ℚ)
    (l : List AttemptInputs)
    (st : LivenessService.CacheState × List FaceAuthService.LogEntry) :
    LivenessService.CacheState × List FaceAuthService.LogEntry :=
  l.foldl (fun st a => faceLoginAttempt hashFn log2 a st) st

lemma verifyLiveness_preserves_counter (hashFn : String → String)
    (log2 : ℚ → ℚ) (c : LivenessService.LivenessCall)
    (s : LivenessService.CacheState)
    (h1 : s.lockedOut = false) (h2 : s.failedAttempts = none) :
    (LivenessService.verifyLiveness hashFn log2 c s).2.lockedOut = false ∧
    (LivenessService.verifyLiveness hashFn log2 c s).2.failedAttempts =
      none := by
  have hrl : LivenessService.checkRateLimit s = (true, s) := by
    unfold LivenessService.checkRateLimit
    rw [if_neg (by simp [h1]),
      if_neg (by simp [h2, LivenessService.MAX_FAILED_ATTEMPTS])]
  unfold LivenessService.verifyLiveness
  split
  · rename_i s1 heq
    rw [hrl] at heq
    simp at heq
  · rename_i s1 heq
    rw [hrl] at heq
    simp only [Prod.mk.injEq] at heq
    obtain ⟨-, rfl⟩ := heq
    split
    · exact ⟨h1, h2⟩
    · split
      · exact ⟨h1, h2⟩
      · split
        · exact ⟨h1, h2⟩
        · split
          · rename_i r s2 hu
            obtain rfl := LivenessService.checkUniqueness_false _ _ _ _ _ hu
            exact ⟨h1, h2⟩
          · rename_i r s2 hu
            obtain ⟨-, rfl⟩ := LivenessService.checkUniqueness_true _ _ _ _ _ hu
            split
            · split
              · exact ⟨h1, h2⟩
              · exact ⟨h1, rfl⟩
            · exact ⟨h1, rfl⟩

lemma faceLoginAttempt_preserves (hashFn : String → String) (log2 : ℚ → ℚ)
    (a : AttemptInputs)
    (st : LivenessService.CacheState × List FaceAuthService.LogEntry)
    (h1 : st.1.lockedOut = false) (h2 : st.1.failedAttempts = none) :
    (faceLoginAttempt hashFn log2 a st).1.lockedOut = false ∧
    (faceLoginAttempt hashFn log2 a st).1.failedAttempts = none := by
  unfold faceLoginAttempt
  have hp := verifyLiveness_preserves_counter hashFn log2 a.liveness st.1 h1 h2
  split
  · rename_i s1 heq
    rw [heq] at hp
    exact hp
  · rename_i s1 heq
    rw [heq] at hp
    exact hp

/-- C2 (code evaluation): `_store_attempt(success=False)` is dead code —
`verify_liveness` calls `_store_attempt` only with `success=True` and no
other code calls it at all, so the per-identity failure counter is never
incremented on any outcome.  Starting from a fresh cache, after ANY
sequence of login attempts — in particular five consecutive attempts whose
face-verification outcome is `FAILED` or `NO_FACE` — the failure counter
is still absent, the lockout flag is still clear, and the next attempt
still passes `_check_rate_limit` instead of being rejected with the
too-many-attempts message. -/
theorem lockout_never_engages (hashFn : String → String) (log2 : ℚ → ℚ)
    (l : List AttemptInputs) (log : List FaceAuthService.LogEntry) :
    (runAttempts hashFn log2 l (initialCacheState, log)).1.lockedOut =
      false ∧
    (runAttempts hashFn log2 l (initialCacheState, log)).1.failedAttempts =
      none ∧
    (LivenessService.checkRateLimit
      (runAttempts hashFn log2 l (initialCacheState, log)).1).1 = true := by
  have main : ∀ (l : List AttemptInputs)
      (st : LivenessService.CacheState × List FaceAuthService.LogEntry),
      st.1.lockedOut = false → st.1.failedAttempts = none →
      (runAttempts hashFn log2 l st).1.lockedOut = false ∧
      (runAttempts hashFn log2 l st).1.failedAttempts = none := by
    intro l
    induction l with
    | nil => exact fun st h1 h2 => ⟨h1, h2⟩
    | cons a tl ih =>
      intro st h1 h2
      have hp := faceLoginAttempt_preserves hashFn log2 a st h1 h2
      exact ih _ hp.1 hp.2
  obtain ⟨h1, h2⟩ := main l (initialCacheState, log) rfl rfl
  refine ⟨h1, h2, ?_⟩
  unfold LivenessService.checkRateLimit
  rw [if_neg (by simp [h1]),
    if_neg (by simp [h2, LivenessService.MAX_FAILED_ATTEMPTS])]
